import Mathlib

/-!
Verification of the command-execution supervisor of the AI-Terminal
repository (`src/core/command_executor.py`), shallowly embedded in Lean.

Python strings are modelled as `List Char` (Python indexing/slicing is by
code point); the result dictionaries that `execute` / `_run_command` return
are modelled as association lists from key to `PyVal`, mirroring the dict
literals in the source.  The operating-system boundary (process spawning,
waiting with a timeout, signalling) is modelled by an explicit oracle
`SpawnBehavior`: `Popen` either yields a process (which `communicate`
either completes or interrupts with `TimeoutExpired`, its two documented
behaviours) or raises `FileNotFoundError`, `PermissionError`, or another
`Exception` at spawn time, before any registration happens — exactly the
exception structure of `_run_command` (lines 81-151).  Signals and
bookkeeping are recorded as an `OsAction` trace.
-/

namespace AITerminal

/-- A value stored in one of the executor's result dictionaries: every
dict literal in `command_executor.py` holds only strings and ints. -/
inductive PyVal where
  | s (v : List Char)
  | i (v : Int)
deriving DecidableEq

/-- A Python dict as the executor builds them: an association list. -/
abbrev PyDict := List (String × PyVal)

/-- Dictionary lookup (`d[k]` / `d.get(k)`). -/
def dictGet (d : PyDict) (k : String) : Option PyVal :=
  (d.find? (fun e => e.1 == k)).map (fun e => e.2)

/-- `allowed_commands` (lines 195-224): the whitelist. -/
def allowedCommands : List String :=
  ["ls", "dir", "cat", "head", "tail", "less", "more", "file",
   "find", "locate", "which", "whereis", "type",
   "grep", "egrep", "fgrep", "awk", "sed", "sort", "uniq", "cut",
   "tr", "wc", "diff", "cmp",
   "tar", "gzip", "gunzip", "zip", "unzip", "7z",
   "ps", "top", "htop", "free", "df", "du", "lsof", "netstat",
   "uname", "whoami", "id", "groups", "uptime", "date", "cal",
   "env", "printenv", "history",
   "ping", "wget", "curl", "nslookup", "dig", "host",
   "git", "python", "python3", "node", "npm", "pip", "pip3",
   "java", "javac", "gcc", "g++", "make", "cmake",
   "vim", "vi", "nano", "emacs",
   "apt", "yum", "dnf", "pacman", "brew"]

/-- `blocked_commands` (lines 227-250): the deny-set. -/
def blockedCommands : List String :=
  ["rm", "rmdir", "del", "erase", "format", "mkfs",
   "fdisk", "parted", "gparted",
   "sudo", "su", "login", "logout", "exit", "shutdown", "reboot",
   "halt", "poweroff", "init", "systemctl", "service",
   "ssh", "scp", "rsync", "ftp", "sftp", "telnet",
   "kill", "killall", "pkill", "nohup", "screen", "tmux",
   "chmod", "chown", "chgrp", "umask",
   "mount", "umount", "swapon", "swapoff",
   "dd", "shred", "wipe"]

/-- `shell_builtins` (line 262): names deferred to the terminal itself. -/
def shellBuiltins : List String :=
  ["cd", "pwd", "echo", "help", "clear", "history"]

/-- Keys of the terminal's own `builtin_commands` dispatch table
(`src/core/terminal.py` lines 31-59): the caller checks this table before
ever consulting the executor. -/
def terminalBuiltinKeys : List String :=
  ["cd", "pwd", "ls", "dir", "mkdir", "rmdir", "rm", "cp", "mv", "cat",
   "echo", "clear", "history", "whoami", "uname", "date", "help", "exit",
   "ps", "kill", "df", "du", "find", "grep", "touch", "head", "tail"]

/-- Python `str.split(sep)` for a one-character separator, on code points. -/
def pySplitOn (sep : Char) : List Char → List (List Char)
  | [] => [[]]
  | c :: rest =>
    match pySplitOn sep rest with
    | [] => [[c]]
    | g :: gs => if c = sep then [] :: g :: gs else (c :: g) :: gs

/-- `command.split('/')[-1]` (line 252): the basename of the command. -/
def baseCommand (command : String) : String :=
  String.mk ((pySplitOn '/' command.toList).getLastD [])

/-- ASCII model of Python `str.lower()` on one character. -/
def pyLowerChar (c : Char) : Char :=
  if 'A' ≤ c ∧ c ≤ 'Z' then Char.ofNat (c.toNat + 32) else c

/-- ASCII model of Python `str.lower()` (`cmd_parts[0].lower()`, line 50). -/
def pyLower (s : String) : String :=
  String.mk (s.toList.map pyLowerChar)

/-- `_is_command_allowed` (lines 192-268): deny-set first, then allow-set,
then shell built-ins (returned as not-allowed so the terminal handles
them), then default deny.  The source returns a `bool`. -/
def isCommandAllowed (command : String) : Bool :=
  let base := baseCommand command
  if base ∈ blockedCommands then false
  else if base ∈ allowedCommands then true
  else if base ∈ shellBuiltins then false
  else false

/-- `command_timeouts` (lines 27-36). -/
def commandTimeouts : List (String × Nat) :=
  [("ping", 10), ("wget", 60), ("curl", 60), ("find", 60),
   ("grep", 30), ("tar", 120), ("zip", 120), ("unzip", 120)]

/-- `default_timeout` (line 26). -/
def defaultTimeout : Nat := 30

/-- `self.command_timeouts.get(command_name, self.default_timeout)` (line 61). -/
def timeoutFor (commandName : String) : Nat :=
  match commandTimeouts.find? (fun e => e.1 == commandName) with
  | some e => e.2
  | none => defaultTimeout

/-- Working-directory resolution (lines 63-67):
`if working_directory and os.path.exists(working_directory)` — note that
only existence is tested, and that an empty override string is falsy. -/
def resolveCwd (workingDirectory : Option String) (pathExists : String → Bool)
    (currentDir : String) : String :=
  match workingDirectory with
  | some w => if w ≠ "" ∧ pathExists w = true then w else currentDir
  | none => currentDir

/-- Modelled from the spec (section 4.2): "Resolves working directory:
request's override if it exists and is a directory, else the supervisor's
own current directory."  Used only to compare the spec's resolution rule
with the source's `resolveCwd`, which never consults `isDir`. -/
def specResolveCwd (workingDirectory : Option String)
    (pathExists isDir : String → Bool) (currentDir : String) : String :=
  match workingDirectory with
  | some w => if pathExists w = true ∧ isDir w = true then w else currentDir
  | none => currentDir

/-- The ASCII characters stripped by Python `str.strip()`. -/
def isPySpace (c : Char) : Bool :=
  c = ' ' || c = '\t' || c = '\n' || c = '\x0b' || c = '\x0c' || c = '\r'

/-- `output.strip()` (line 183): drop whitespace from both ends. -/
def pyStrip (s : List Char) : List Char :=
  (s.dropWhile isPySpace).rdropWhile isPySpace

/-- `max_length = 10000` (line 186). -/
def maxLength : Nat := 10000

/-- The marker appended on truncation (line 188). -/
def truncationMarker : List Char := "\n... [output truncated]".toList

/-- `_process_output` (lines 177-190): empty check, strip, then truncate
with marker when the stripped length exceeds the cap. -/
def processOutput (output : List Char) : List Char :=
  if output = [] then []
  else
    let stripped := pyStrip output
    if maxLength < stripped.length then stripped.take maxLength ++ truncationMarker
    else stripped

/-- Observable effects of one `execute` call on the operating system and
on the `running_processes` bookkeeping, in order. -/
inductive OsAction where
  | spawn (cwd : String) (pid : Nat)
  | register (pid : Nat)
  | unregister (pid : Nat)
  | taskkill (pid : Nat)
  | sigtermGroup (pid : Nat)
  | sleepMs (ms : Nat)
  | sigkillGroup (pid : Nat)
deriving DecidableEq

/-- What `process.communicate(timeout=...)` does after the process was
registered: it returns the captured streams, raises
`subprocess.TimeoutExpired` (the only exception handled by the inner
`try`, lines 102-132), or raises some other exception — e.g. a
`UnicodeDecodeError` while decoding the child's output under
`text=True` — which escapes the inner `try` and lands in the outer
`except Exception` (lines 146-151).  `aliveAfterGrace` records whether
the process group still exists after the 0.5 s grace sleep (the second
`os.killpg` is attempted and its `ProcessLookupError` swallowed when it
does not, lines 169-173). -/
inductive WaitOutcome where
  | completed (stdout stderr : List Char) (returncode : Int)
  | timedOut (aliveAfterGrace : Bool)
  | raised (message : List Char)
deriving DecidableEq

/-- What `subprocess.Popen` does: yields a process, or itself raises
`FileNotFoundError`, `PermissionError`, or some other `Exception`
(lines 134-151).  When `Popen` itself raises, the registration at
line 98 has not yet run; exceptions raised *after* registration, during
the wait, are modelled by `WaitOutcome.raised`. -/
inductive SpawnBehavior where
  | spawned (pid : Nat) (outcome : WaitOutcome)
  | raiseNotFound
  | raisePermission
  | raiseOther (message : List Char)
deriving DecidableEq

/-- The operating-system context of one call: `os.path.exists`,
`os.getcwd()`, `platform.system() == "Windows"`, and the spawn oracle. -/
structure OsEnv where
  pathExists : String → Bool
  cwd : String
  isWindows : Bool
  spawn : SpawnBehavior

/-- `_kill_process_group` (lines 153-175): Windows uses `taskkill /F /T`;
Unix sends SIGTERM to the process group, sleeps 0.5 s, then sends SIGKILL
to the group — the SIGKILL is a no-op (caught `ProcessLookupError`) when
the group died during the grace interval. -/
def killProcessGroup (isWindows : Bool) (pid : Nat) (aliveAfterGrace : Bool) :
    List OsAction :=
  if isWindows then [.taskkill pid]
  else [.sigtermGroup pid, .sleepMs 500] ++
    (if aliveAfterGrace then [.sigkillGroup pid] else [])

/-- The value of one `execute` call: the returned dict, the final
`running_processes` key set, and the trace of OS actions. -/
structure ExecOutcome where
  result : PyDict
  registry : Finset Nat
  actions : List OsAction
deriving DecidableEq

/-- The timeout result dict (lines 128-132). -/
def timeoutResult (timeout : Nat) : PyDict :=
  [("output", .s []),
   ("error", .s ("Command timed out after " ++ toString timeout ++ " seconds").toList),
   ("returncode", .i 124)]

/-- `_run_command` (lines 81-151): spawn, register under `id(process)`,
wait with timeout; on completion pop the entry and sanitize both streams;
on `TimeoutExpired` kill the group, pop the entry, return code 124; on
spawn-time exceptions return 127 / 126 / 1 without ever registering.
When the wait itself raises a non-timeout exception (after
registration), the outer `except Exception` (lines 146-151) returns the
generic failure result *without* popping `running_processes[process_id]`
— the registered entry stays behind. -/
def runCommand (cmdParts : List String) (cwd : String) (timeout : Nat)
    (isWindows : Bool) (behavior : SpawnBehavior) (reg : Finset Nat) :
    ExecOutcome :=
  match behavior with
  | .spawned pid outcome =>
    let reg1 := insert pid reg
    match outcome with
    | .completed stdout stderr returncode =>
      { result := [("output", .s (processOutput stdout)),
                   ("error", .s (processOutput stderr)),
                   ("returncode", .i returncode)]
        registry := reg1.erase pid
        actions := [.spawn cwd pid, .register pid, .unregister pid] }
    | .timedOut alive =>
      { result := timeoutResult timeout
        registry := reg1.erase pid
        actions := [.spawn cwd pid, .register pid] ++
          killProcessGroup isWindows pid alive ++ [.unregister pid] }
    | .raised message =>
      { result := [("output", .s []),
                   ("error", .s ("Execution failed: ".toList ++ message)),
                   ("returncode", .i 1)]
        registry := reg1
        actions := [.spawn cwd pid, .register pid] }
  | .raiseNotFound =>
    { result := [("output", .s []),
                 ("error", .s ("Command not found: " ++ cmdParts.headD "").toList),
                 ("returncode", .i 127)]
      registry := reg
      actions := [] }
  | .raisePermission =>
    { result := [("output", .s []),
                 ("error", .s ("Permission denied: " ++ cmdParts.headD "").toList),
                 ("returncode", .i 126)]
      registry := reg
      actions := [] }
  | .raiseOther message =>
    { result := [("output", .s []),
                 ("error", .s ("Execution failed: ".toList ++ message)),
                 ("returncode", .i 1)]
      registry := reg
      actions := [] }

/-- `execute` (lines 38-79) on an already-tokenized argument list (the
source accepts a pre-split list directly; `shlex.split` maps empty and
whitespace-only strings to the empty list): empty-command check, policy
check on the lowercased name, timeout and working-directory resolution,
then `_run_command`. -/
def execute (cmdParts : List String) (workingDirectory : Option String)
    (env : OsEnv) (reg : Finset Nat) : ExecOutcome :=
  if cmdParts = [] then
    { result := [("output", .s []), ("error", .s "Empty command".toList),
                 ("returncode", .i 1)]
      registry := reg
      actions := [] }
  else
    let commandName := pyLower (cmdParts.headD "")
    if isCommandAllowed commandName then
      runCommand cmdParts (resolveCwd workingDirectory env.pathExists env.cwd)
        (timeoutFor commandName) env.isWindows env.spawn reg
    else
      { result := [("output", .s []),
                   ("error", .s ("Command not allowed: " ++ commandName).toList),
                   ("returncode", .i 1)]
        registry := reg
        actions := [] }

/-! ## Lemmas about the output sanitizer -/

/-- Unfolding equation for `processOutput` with the `let` inlined. -/
theorem processOutput_eq (s : List Char) :
    processOutput s =
      if s = [] then []
      else if maxLength < (pyStrip s).length
        then (pyStrip s).take maxLength ++ truncationMarker
        else pyStrip s := rfl

/-- The head of `dropWhile isPySpace` is not whitespace. -/
theorem head?_dropWhile_isPySpace {l : List Char} {c : Char}
    (h : (l.dropWhile isPySpace).head? = some c) : isPySpace c = false := by
  have hne : l.dropWhile isPySpace ≠ [] := by
    intro he
    rw [he] at h
    exact Option.noConfusion h
  have hhead := List.head_dropWhile_not isPySpace l hne
  rw [List.head?_eq_head hne] at h
  injection h with h
  rw [← h]
  exact hhead

/-- The head of a stripped string is not whitespace. -/
theorem pyStrip_head?_isPySpace {s : List Char} {c : Char}
    (h : (pyStrip s).head? = some c) : isPySpace c = false := by
  unfold pyStrip at h
  obtain ⟨r, hr⟩ := List.rdropWhile_prefix isPySpace (s.dropWhile isPySpace)
  cases hd : (s.dropWhile isPySpace).rdropWhile isPySpace with
  | nil =>
    rw [hd] at h
    exact Option.noConfusion h
  | cons x xs =>
    rw [hd] at h hr
    injection h with h
    apply head?_dropWhile_isPySpace (l := s)
    rw [← hr, List.cons_append]
    rw [← h]
    rfl

/-- The last character of a stripped string is not whitespace. -/
theorem pyStrip_getLast?_isPySpace {s : List Char} {c : Char}
    (h : (pyStrip s).getLast? = some c) : isPySpace c = false := by
  have hne : pyStrip s ≠ [] := by
    intro he
    rw [he] at h
    exact Option.noConfusion h
  have hlast := List.rdropWhile_last_not isPySpace (s.dropWhile isPySpace) hne
  rw [List.getLast?_eq_getLast_of_ne_nil hne] at h
  injection h with h
  rw [← h]
  simpa using hlast

/-- Stripping a string whose two ends are not whitespace is the identity. -/
theorem pyStrip_eq_self {l : List Char}
    (h1 : ∀ c, l.head? = some c → isPySpace c = false)
    (h2 : ∀ c, l.getLast? = some c → isPySpace c = false) :
    pyStrip l = l := by
  unfold pyStrip
  have hd : l.dropWhile isPySpace = l := by
    cases l with
    | nil => rfl
    | cons a t =>
      have ha := h1 a rfl
      simp [List.dropWhile_cons, ha]
  rw [hd, List.rdropWhile_eq_self_iff]
  intro hl
  have := h2 (l.getLast hl) (List.getLast?_eq_getLast_of_ne_nil hl)
  simp [this]

/-- Stripping is idempotent. -/
theorem pyStrip_idem (s : List Char) : pyStrip (pyStrip s) = pyStrip s :=
  pyStrip_eq_self (fun _ h => pyStrip_head?_isPySpace h)
    (fun _ h => pyStrip_getLast?_isPySpace h)

/-- Taking a positive number of elements preserves the head. -/
theorem head?_take_pos {l : List Char} {n : Nat} (hn : 0 < n) :
    (l.take n).head? = l.head? := by
  cases l with
  | nil => simp
  | cons a t =>
    cases n with
    | zero => exact absurd hn (by simp)
    | succ m => rfl

/-- The head of an append with a nonempty left part. -/
theorem head?_append_left {A B : List Char} (h : A ≠ []) :
    (A ++ B).head? = A.head? := by
  cases A with
  | nil => exact absurd rfl h
  | cons a t => rfl

theorem truncationMarker_ne_nil : truncationMarker ≠ [] := by decide

theorem truncationMarker_getLast? : truncationMarker.getLast? = some ']' := by decide

theorem truncationMarker_length : truncationMarker.length = 23 := by decide

/-- C6: Sanitizing is idempotent: for every string `s`, sanitizing the
result of sanitizing `s` yields the same string as sanitizing `s` once
(`_process_output` lines 177-190). -/
theorem C6_sanitize_idempotent (s : List Char) :
    processOutput (processOutput s) = processOutput s := by
  by_cases hs : s = []
  · subst hs
    rfl
  · rw [processOutput_eq s, if_neg hs]
    by_cases hlen : maxLength < (pyStrip s).length
    · rw [if_pos hlen]
      have htne : (pyStrip s).take maxLength ≠ [] := by
        have hl : ((pyStrip s).take maxLength).length = maxLength := by
          rw [List.length_take]
          omega
        intro he
        rw [he] at hl
        simp [maxLength] at hl
      have hrne : (pyStrip s).take maxLength ++ truncationMarker ≠ [] := by
        intro he
        exact htne (List.append_eq_nil.mp he).1
      rw [processOutput_eq, if_neg hrne]
      have hstrip : pyStrip ((pyStrip s).take maxLength ++ truncationMarker)
          = (pyStrip s).take maxLength ++ truncationMarker := by
        apply pyStrip_eq_self
        · intro c hc
          rw [head?_append_left htne, head?_take_pos (by simp [maxLength])] at hc
          exact pyStrip_head?_isPySpace hc
        · intro c hc
          rw [List.getLast?_append_of_ne_nil _ truncationMarker_ne_nil,
            truncationMarker_getLast?] at hc
          injection hc with hc
          rw [← hc]
          decide
      rw [hstrip]
      have hlen2 : maxLength <
          ((pyStrip s).take maxLength ++ truncationMarker).length := by
        rw [List.length_append, List.length_take, truncationMarker_length]
        omega
      rw [if_pos hlen2]
      have h1 : ((pyStrip s).take maxLength).length = maxLength := by
        rw [List.length_take]
        omega
      congr 1
      rw [List.take_append_eq_append_take, h1, Nat.sub_self, List.take_zero,
        List.append_nil, List.take_take, Nat.min_self]
    · rw [if_neg hlen]
      by_cases ht : pyStrip s = []
      · rw [ht]
        rfl
      · rw [processOutput_eq, if_neg ht, pyStrip_idem, if_neg hlen]

/-- C5 counterexample: the claim states the sanitized output length never
exceeds the configured cap, but on an input of 10001 non-whitespace
characters the code returns the first 10000 characters *plus* the
23-character marker, 10023 characters in all — more than the cap. -/
theorem C5_counterexample :
    ¬ (processOutput (List.replicate 10001 'a')).length ≤ maxLength := by
  have hstrip : pyStrip (List.replicate 10001 'a') = List.replicate 10001 'a' := by
    apply pyStrip_eq_self
    · intro c hc
      rw [List.head?_replicate, if_neg (by decide)] at hc
      injection hc with hc
      rw [← hc]
      decide
    · intro c hc
      rw [List.getLast?_replicate, if_neg (by decide)] at hc
      injection hc with hc
      rw [← hc]
      decide
  have hne : (List.replicate 10001 'a') ≠ ([] : List Char) := by
    intro he
    have hl := List.length_replicate 10001 'a'
    rw [he] at hl
    simp at hl
  rw [processOutput_eq, if_neg hne, hstrip,
    if_pos (by rw [List.length_replicate]; decide)]
  rw [List.length_append, List.length_take, List.length_replicate,
    truncationMarker_length]
  decide

/-- C5 (amended): sanitizing first strips leading and trailing whitespace;
if the stripped length exceeds the 10000-character cap the result is
exactly the first 10000 characters of the stripped text followed by the
fixed truncation marker, otherwise the stripped text is returned
unchanged; the result's length never exceeds the cap *plus the marker
length* (the marker is appended after the cap is applied, so a truncated
result is 10023 characters long), and the returned dict carries no
truncated flag — the source result dicts have only `output`, `error` and
`returncode` keys. -/
theorem C5_sanitize_behavior (s : List Char) :
    ((pyStrip s).length ≤ maxLength → processOutput s = pyStrip s) ∧
    (maxLength < (pyStrip s).length →
      processOutput s = (pyStrip s).take maxLength ++ truncationMarker) ∧
    (processOutput s).length ≤ maxLength + truncationMarker.length ∧
    (∀ stdout stderr rc isWindows cwd cmdParts reg timeout pid,
      dictGet (runCommand cmdParts cwd timeout isWindows
        (.spawned pid (.completed stdout stderr rc)) reg).result
        "truncated" = none) := by
  refine ⟨?_, ?_, ?_, ?_⟩
  · intro h
    by_cases hs : s = []
    · subst hs
      rfl
    · rw [processOutput_eq, if_neg hs, if_neg (by omega)]
  · intro h
    have hs : s ≠ [] := by
      intro he
      subst he
      exact absurd h (by decide)
    rw [processOutput_eq, if_neg hs, if_pos h]
  · by_cases hs : s = []
    · subst hs
      simp [processOutput_eq]
    · rw [processOutput_eq, if_neg hs]
      by_cases hlen : maxLength < (pyStrip s).length
      · rw [if_pos hlen, List.length_append, List.length_take]
        omega
      · rw [if_neg hlen]
        omega
  · intro stdout stderr rc isWindows cwd cmdParts reg timeout pid
    rfl

/-- C5 witness: the amended theorem applied to a short input. -/
theorem C5_sanitize_behavior_witness :
    processOutput ("  hi  ".toList) = pyStrip ("  hi  ".toList) :=
  (C5_sanitize_behavior ("  hi  ".toList)).1 (by decide)

/-- C2 counterexample: on a concrete timeout the returned dict is the
three-key timeout result — it has no `timedOut` key at all, so the claim
that the call "returns a result with ... timedOut=true" fails (only the
sentinel exit code 124 is returned). -/
theorem C2_counterexample :
    dictGet (runCommand ["ping", "example.com"] "/root" 10 false
      (.spawned 42 (.timedOut true)) ∅).result "returncode" = some (.i 124) ∧
    dictGet (runCommand ["ping", "example.com"] "/root" 10 false
      (.spawned 42 (.timedOut true)) ∅).result "timedOut" = none := by
  constructor
  · rfl
  · rfl

/-- C2 (amended): on every platform the timeout path runs the group-kill
procedure, removes the process entry from the registry, and returns the
timeout sentinel exit code 124 — but the returned dict contains no
timedOut field.  The kill procedure is platform-split: on the Unix
branch it sends SIGTERM to the whole process group, sleeps the fixed
500 ms grace interval, and sends SIGKILL to the group if it is still
alive (the kill is skipped exactly when the group died during the grace
interval); on the Windows branch it is a single forceful process-tree
termination (`taskkill /F /T`), with no graceful signal or grace
interval. -/
theorem C2_timeout_path (cmdParts : List String) (cwd : String) (timeout : Nat)
    (win : Bool) (pid : Nat) (alive : Bool) (reg : Finset Nat) :
    (runCommand cmdParts cwd timeout win (.spawned pid (.timedOut alive)) reg).actions
      = [.spawn cwd pid, .register pid] ++ killProcessGroup win pid alive ++
        [.unregister pid] ∧
    killProcessGroup false pid alive
      = [.sigtermGroup pid, .sleepMs 500] ++
        (if alive then [.sigkillGroup pid] else []) ∧
    killProcessGroup true pid alive = [.taskkill pid] ∧
    (runCommand cmdParts cwd timeout win (.spawned pid (.timedOut alive)) reg).registry
      = reg.erase pid ∧
    pid ∉ (runCommand cmdParts cwd timeout win (.spawned pid (.timedOut alive)) reg).registry ∧
    dictGet (runCommand cmdParts cwd timeout win
      (.spawned pid (.timedOut alive)) reg).result "returncode" = some (.i 124) ∧
    dictGet (runCommand cmdParts cwd timeout win
      (.spawned pid (.timedOut alive)) reg).result "timedOut" = none := by
  refine ⟨rfl, rfl, rfl, ?_, ?_, rfl, rfl⟩
  · exact Finset.erase_insert_eq_erase reg pid
  · exact Finset.not_mem_erase pid (insert pid reg)

/-- C3: spawn-time failures map to distinct fixed exit codes:
executable-not-found to 127, permission-denied to 126, and any other
OS-level spawn failure to the generic code 1; the three codes are pairwise
distinct, so the cause is recoverable from the exit code alone
(`_run_command` lines 134-151). -/
theorem C3_spawn_failure_codes (cmdParts : List String) (cwd : String)
    (timeout : Nat) (isWindows : Bool) (reg : Finset Nat) (message : List Char) :
    dictGet (runCommand cmdParts cwd timeout isWindows .raiseNotFound reg).result
      "returncode" = some (.i 127) ∧
    dictGet (runCommand cmdParts cwd timeout isWindows .raisePermission reg).result
      "returncode" = some (.i 126) ∧
    dictGet (runCommand cmdParts cwd timeout isWindows (.raiseOther message) reg).result
      "returncode" = some (.i 1) ∧
    (127 : Int) ≠ 126 ∧ (127 : Int) ≠ 1 ∧ (126 : Int) ≠ 1 :=
  ⟨rfl, rfl, rfl, by decide, by decide, by decide⟩

/-- C9: for every input (any token list, any working directory, any
behaviour of the operating system) `execute` returns a structured result
dict with exactly an output string, an error string and an integer exit
code; every error class — policy denial, not-found, permission-denied,
timeout, other spawn failure — is delivered through this shape rather
than as an uncaught fault (`execute` lines 38-79, `_run_command` 81-151). -/
theorem C9_structured_result (cmdParts : List String) (wd : Option String)
    (env : OsEnv) (reg : Finset Nat) :
    ∃ o e rc, (execute cmdParts wd env reg).result =
      [("output", .s o), ("error", .s e), ("returncode", .i rc)] := by
  obtain ⟨pe, cwd, win, behavior⟩ := env
  by_cases h : cmdParts = []
  · rw [execute, if_pos h]
    exact ⟨_, _, _, rfl⟩
  · rw [execute, if_neg h]
    by_cases ha : isCommandAllowed (pyLower (cmdParts.headD "")) = true
    · rw [if_pos ha]
      cases behavior with
      | spawned pid outcome =>
        cases outcome with
        | completed o e rc => exact ⟨_, _, _, rfl⟩
        | timedOut alive => exact ⟨_, _, _, rfl⟩
        | raised m => exact ⟨_, _, _, rfl⟩
      | raiseNotFound => exact ⟨_, _, _, rfl⟩
      | raisePermission => exact ⟨_, _, _, rfl⟩
      | raiseOther m => exact ⟨_, _, _, rfl⟩
    · rw [if_neg ha]
      exact ⟨_, _, _, rfl⟩

/-- C10: a command that parses to the empty argument sequence (which is
what `shlex.split` produces for empty and whitespace-only input) returns
exit code 1 with the error message "Empty command", spawns nothing, and
leaves the running-processes registry unchanged (`execute` lines 42-48). -/
theorem C10_empty_command (wd : Option String) (env : OsEnv) (reg : Finset Nat) :
    (execute [] wd env reg).result =
      [("output", .s []), ("error", .s "Empty command".toList), ("returncode", .i 1)] ∧
    (execute [] wd env reg).registry = reg ∧
    (execute [] wd env reg).actions = [] :=
  ⟨rfl, rfl, rfl⟩

/-- C1: a command whose lowercased basename is in the deny-set is
classified as not allowed, `execute` returns the policy-denial result,
no process is spawned and the registry is untouched — regardless of
whether the same basename is also in the allow-set, because
`_is_command_allowed` consults `blocked_commands` first (lines 252-255). -/
theorem C1_deny_wins (cmdParts : List String) (wd : Option String) (env : OsEnv)
    (reg : Finset Nat) (c : String)
    (hhead : cmdParts.head? = some c)
    (hdeny : baseCommand (pyLower c) ∈ blockedCommands) :
    isCommandAllowed (pyLower c) = false ∧
    (execute cmdParts wd env reg).result =
      [("output", .s []),
       ("error", .s ("Command not allowed: " ++ pyLower c).toList),
       ("returncode", .i 1)] ∧
    (execute cmdParts wd env reg).registry = reg ∧
    (execute cmdParts wd env reg).actions = [] := by
  have hguard : isCommandAllowed (pyLower c) = false := by
    simp only [isCommandAllowed]
    rw [if_pos hdeny]
  cases cmdParts with
  | nil => exact absurd hhead (by simp)
  | cons a t =>
    have hac : a = c := by
      injection hhead
    subst hac
    have hexec : execute (a :: t) wd env reg =
        { result := [("output", .s []),
            ("error", .s ("Command not allowed: " ++ pyLower a).toList),
            ("returncode", .i 1)]
          registry := reg
          actions := [] } := by
      rw [execute, if_neg (List.cons_ne_nil a t)]
      show (if isCommandAllowed (pyLower a) = true then _ else _) = _
      rw [if_neg (by simp [hguard])]
      rfl
    exact ⟨hguard, by rw [hexec], by rw [hexec], by rw [hexec]⟩

/-- C1 witness: `rm` is in the deny-set; executing it is refused with no
spawned process. -/
theorem C1_deny_wins_witness :
    isCommandAllowed (pyLower "rm") = false ∧
    (execute ["rm", "-rf"] none
      (OsEnv.mk (fun _ => true) "/root" false .raiseNotFound) ∅).actions = [] := by
  have h := C1_deny_wins ["rm", "-rf"] none
    (OsEnv.mk (fun _ => true) "/root" false .raiseNotFound) ∅ "rm" rfl (by decide)
  exact ⟨h.1, h.2.2.2⟩

/-- C4 counterexample: when the wait raises a non-timeout exception
after registration (e.g. a `UnicodeDecodeError` while decoding the
child's output under `text=True`), the outer `except Exception`
(lines 146-151) returns the generic failure result without popping the
registered entry: here a run that registered id 7 ends with 7 still in
the registry — a leaked entry, refuting "no call leaves a leaked entry
behind". -/
theorem C4_counterexample :
    OsAction.register 7 ∈ (execute ["ls"] none
      (OsEnv.mk (fun _ => false) "/h" false
        (.spawned 7 (.raised "invalid utf-8 in output".toList))) ∅).actions ∧
    OsAction.unregister 7 ∉ (execute ["ls"] none
      (OsEnv.mk (fun _ => false) "/h" false
        (.spawned 7 (.raised "invalid utf-8 in output".toList))) ∅).actions ∧
    7 ∈ (execute ["ls"] none
      (OsEnv.mk (fun _ => false) "/h" false
        (.spawned 7 (.raised "invalid utf-8 in output".toList))) ∅).registry ∧
    dictGet (execute ["ls"] none
      (OsEnv.mk (fun _ => false) "/h" false
        (.spawned 7 (.raised "invalid utf-8 in output".toList))) ∅).result
      "returncode" = some (.i 1) :=
  ⟨by decide, by decide, by decide, by decide⟩

/-- C4 (amended): the registered handle is removed by the time the call
returns on natural completion and on timeout, and the spawn-failure
paths (not-found, permission-denied, other spawn error) never register
at all and leave the registry unchanged — but on the one remaining error
path, a non-timeout exception raised during the wait after registration,
the entry is *not* removed: the outer `except Exception` returns with
the registered id still in the registry, so the no-leak guarantee fails
on that path. -/
theorem C4_registry_discipline (cmdParts : List String) (cwd : String)
    (timeout : Nat) (win : Bool) (reg : Finset Nat) (pid : Nat)
    (o e : List Char) (rc : Int) (alive : Bool) (message : List Char) :
    (runCommand cmdParts cwd timeout win (.spawned pid (.completed o e rc)) reg).registry
      = reg.erase pid ∧
    pid ∉ (runCommand cmdParts cwd timeout win (.spawned pid (.completed o e rc)) reg).registry ∧
    (runCommand cmdParts cwd timeout win (.spawned pid (.timedOut alive)) reg).registry
      = reg.erase pid ∧
    pid ∉ (runCommand cmdParts cwd timeout win (.spawned pid (.timedOut alive)) reg).registry ∧
    (runCommand cmdParts cwd timeout win .raiseNotFound reg).registry = reg ∧
    (runCommand cmdParts cwd timeout win .raisePermission reg).registry = reg ∧
    (runCommand cmdParts cwd timeout win (.raiseOther message) reg).registry = reg ∧
    (runCommand cmdParts cwd timeout win (.spawned pid (.raised message)) reg).registry
      = insert pid reg ∧
    pid ∈ (runCommand cmdParts cwd timeout win (.spawned pid (.raised message)) reg).registry :=
  ⟨Finset.erase_insert_eq_erase reg pid,
   Finset.not_mem_erase pid (insert pid reg),
   Finset.erase_insert_eq_erase reg pid,
   Finset.not_mem_erase pid (insert pid reg),
   rfl, rfl, rfl, rfl,
   Finset.mem_insert_self pid reg⟩

/-- C7 counterexample: with an override path that exists but is *not* a
directory, the code still selects the override (it tests only
`os.path.exists`, line 64), the spec's rule ("exists and is a directory")
selects the supervisor's directory instead, and the child is spawned in
the override — refuting the claimed if-and-only-if. -/
theorem C7_counterexample :
    resolveCwd (some "/tmp/afile") (fun p => p == "/tmp/afile") "/home"
      = "/tmp/afile" ∧
    specResolveCwd (some "/tmp/afile") (fun p => p == "/tmp/afile")
      (fun _ => false) "/home" = "/home" ∧
    (execute ["ls"] (some "/tmp/afile")
      (OsEnv.mk (fun p => p == "/tmp/afile") "/home" false
        (.spawned 3 (.completed [] [] 0))) ∅).actions
      = [.spawn "/tmp/afile" 3, .register 3, .unregister 3] ∧
    ("/tmp/afile" : String) ≠ "/home" :=
  ⟨by decide, by decide, by decide, by decide⟩

/-- C7 (amended): the child's working directory is always the resolved
one; the override is used exactly when it is present, nonempty, and
passes `os.path.exists` — whether or not it is a directory; in every
other case the supervisor's own current directory is used. -/
theorem C7_cwd_resolution (cmdParts : List String) (wd : Option String)
    (env : OsEnv) (reg : Finset Nat) :
    (∀ c pid, OsAction.spawn c pid ∈ (execute cmdParts wd env reg).actions →
      c = resolveCwd wd env.pathExists env.cwd) ∧
    (∀ w, wd = some w → w ≠ "" → env.pathExists w = true →
      resolveCwd wd env.pathExists env.cwd = w) ∧
    (∀ w, wd = some w → env.pathExists w = false →
      resolveCwd wd env.pathExists env.cwd = env.cwd) ∧
    (wd = none → resolveCwd wd env.pathExists env.cwd = env.cwd) := by
  obtain ⟨pe, cwd, win, behavior⟩ := env
  refine ⟨?_, ?_, ?_, ?_⟩
  · intro c pid hmem
    by_cases h : cmdParts = []
    · rw [execute, if_pos h] at hmem
      simp at hmem
    · rw [execute, if_neg h] at hmem
      by_cases ha : isCommandAllowed (pyLower (cmdParts.headD "")) = true
      · rw [if_pos ha] at hmem
        cases behavior with
        | spawned pid' outcome =>
          cases outcome with
          | completed o e rc =>
            simp [runCommand] at hmem
            exact hmem.1
          | timedOut alive =>
            cases win <;> cases alive <;>
              · simp [runCommand, killProcessGroup] at hmem
                exact hmem.1
          | raised message =>
            simp [runCommand] at hmem
            exact hmem.1
        | raiseNotFound => simp [runCommand] at hmem
        | raisePermission => simp [runCommand] at hmem
        | raiseOther m => simp [runCommand] at hmem
      · rw [if_neg ha] at hmem
        simp at hmem
  · intro w hw hne hpe
    subst hw
    show (if w ≠ "" ∧ pe w = true then w else cwd) = w
    rw [if_pos ⟨hne, hpe⟩]
  · intro w hw hpe
    subst hw
    have hpe2 : pe w = false := hpe
    show (if w ≠ "" ∧ pe w = true then w else cwd) = cwd
    rw [if_neg (by simp [hpe2])]
  · intro hw
    subst hw
    rfl

/-- C7 witness: with no override the child is spawned in the
supervisor's own current directory. -/
theorem C7_cwd_resolution_witness :
    ("/home" : String) = resolveCwd none (fun _ => false) "/home" :=
  (C7_cwd_resolution ["ls"] none
    (OsEnv.mk (fun _ => false) "/home" false (.spawned 7 (.completed [] [] 0))) ∅).1
    "/home" 7 (by decide)

/-- C8 counterexample: the source's policy check returns a `bool`, so the
shell built-in `cd` receives the very same classification as the
deny-set member `sudo` — there is no `BuiltinDefer` value distinct from
`Deny` (lines 260-264 return `False` for built-ins). -/
theorem C8_counterexample :
    isCommandAllowed "cd" = isCommandAllowed "sudo" ∧
    isCommandAllowed "cd" = false :=
  ⟨by decide, by decide⟩

/-- C8 (amended): the guard is boolean; every name whose basename is
outside the allow-set — deny-set members, shell built-ins such as `cd`
and `pwd`, and unknown names alike — is classified not-allowed (the same
value as an explicit denial), so the executor spawns nothing for it; the
routing of built-ins to their own handlers happens in the caller, whose
`builtin_commands` dispatch table contains every name of the guard's
built-in set and is consulted before the executor. -/
theorem C8_guard_boolean (name : String)
    (h : baseCommand name ∉ allowedCommands) :
    isCommandAllowed name = false ∧
    ∀ b ∈ shellBuiltins, b ∈ terminalBuiltinKeys := by
  constructor
  · simp only [isCommandAllowed]
    by_cases hb : baseCommand name ∈ blockedCommands
    · rw [if_pos hb]
    · rw [if_neg hb, if_neg h]
      by_cases hs : baseCommand name ∈ shellBuiltins
      · rw [if_pos hs]
      · rw [if_neg hs]
  · decide

/-- C8 witness: the built-in `cd` is not allowed by the executor, and the
terminal's dispatch table covers all deferred built-ins. -/
theorem C8_guard_boolean_witness :
    isCommandAllowed "cd" = false ∧
    ∀ b ∈ shellBuiltins, b ∈ terminalBuiltinKeys :=
  C8_guard_boolean "cd" (by decide)

end AITerminal
